import Mathlib

/-!
Verification development for the CommuCat CLI client's connection engine
(`src/engine.rs`) and hex utilities (`src/hexutil.rs`).

Shallow embedding conventions:
* Rust `u8`/`u64` values are modelled as `Nat` (no arithmetic here can
  overflow: sequence numbers only ever increment from small starting
  values, and byte values are kept `< 256` by hypothesis).
* Rust `Result<T>` (anyhow) is modelled as `Except String T`, carrying the
  human-readable error message the code constructs.
* Strings on the Rust side that are only ever inspected bytewise or
  charwise are modelled as `List Char`; `str::trim` is modelled over ASCII
  whitespace, which is all that can appear around hex strings here.
* External collaborators (the `http::Uri` parser, DNS/TCP/TLS/h2 transport,
  the Noise handshake object of `commucat_crypto`, the `serde_json` parser
  and the frame byte codec of `commucat_proto`) are modelled as abstract
  environment inputs: each call site takes the call's outcome from an
  environment record, while the engine's own control flow around those
  outcomes is translated statement by statement from the source.
-/

instance instDecEqExceptStr {α : Type} [DecidableEq α] :
    DecidableEq (Except String α) := fun a b =>
  match a, b with
  | .ok x, .ok y =>
    if h : x = y then .isTrue (by rw [h])
    else .isFalse (by intro hc; cases hc; exact h rfl)
  | .error x, .error y =>
    if h : x = y then .isTrue (by rw [h])
    else .isFalse (by intro hc; cases hc; exact h rfl)
  | .ok _, .error _ => .isFalse (by intro hc; cases hc)
  | .error _, .ok _ => .isFalse (by intro hc; cases hc)

namespace Hexutil

/-- `nibble` from `src/hexutil.rs`: a 4-bit value to a lowercase hex char;
out-of-range values map to `'0'` exactly as the Rust `match` does. -/
def nibble (value : Nat) : Char :=
  if value ≤ 9 then Char.ofNat (48 + value)
  else if value ≤ 15 then Char.ofNat (97 + (value - 10))
  else '0'

/-- `encode_hex` from `src/hexutil.rs`: each byte becomes
`nibble (byte >> 4)` then `nibble (byte & 0x0f)`. -/
def encode_hex (bytes : List Nat) : List Char :=
  bytes.flatMap (fun b => [nibble (b >>> 4), nibble (b &&& 15)])

/-- `decode_digit` from `src/hexutil.rs`, over the byte value of the char. -/
def decode_digit (value : Nat) : Except String Nat :=
  if 48 ≤ value ∧ value ≤ 57 then .ok (value - 48)
  else if 97 ≤ value ∧ value ≤ 102 then .ok (10 + value - 97)
  else if 65 ≤ value ∧ value ≤ 70 then .ok (10 + value - 65)
  else .error "invalid hex digit"

/-- One pass of `bytes.chunks(2)` with both digits decoded and recombined
as `(high << 4) | low`. The singleton case cannot be reached because
`decode_hex` checks the length is even first; it mirrors that guard. -/
def decodePairs : List Nat → Except String (List Nat)
  | [] => .ok []
  | [_] => .error "invalid hex length"
  | h :: l :: rest =>
    match decode_digit h with
    | .error e => .error e
    | .ok hi =>
      match decode_digit l with
      | .error e => .error e
      | .ok lo =>
        match decodePairs rest with
        | .error e => .error e
        | .ok tail => .ok (((hi <<< 4) ||| lo) :: tail)

/-- Rust `str::trim` restricted to the ASCII whitespace that can occur in
this code base's hex strings. -/
def rustTrim (s : List Char) : List Char :=
  ((s.dropWhile Char.isWhitespace).reverse.dropWhile Char.isWhitespace).reverse

/-- `decode_hex` from `src/hexutil.rs`: trim, reject odd length, then
decode byte pairs. -/
def decode_hex (input : List Char) : Except String (List Nat) :=
  let cleaned := rustTrim input
  if cleaned.length % 2 ≠ 0 then .error "invalid hex length"
  else decodePairs (cleaned.map Char.toNat)

/-- `decode_hex32` from `src/hexutil.rs`. -/
def decode_hex32 (input : List Char) : Except String (List Nat) :=
  match decode_hex input with
  | .error e => .error e
  | .ok bytes => if bytes.length ≠ 32 then .error "expected 32 bytes" else .ok bytes

/-- A lowercase hex digit, as produced by `nibble`. -/
def isLowerHexDigit (c : Char) : Bool :=
  (48 ≤ c.toNat && c.toNat ≤ 57) || (97 ≤ c.toNat && c.toNat ≤ 102)

end Hexutil

namespace Engine

/-- `serde_json::Value`, as far as the engine inspects it. -/
inductive JValue where
  | null
  | bool (b : Bool)
  | num (n : Int)
  | str (s : String)
  | arr (xs : List JValue)
  | obj (fields : List (String × JValue))

/-- Key lookup in a JSON object's field list (`serde_json::Map` access). -/
def lookupField : List (String × JValue) → String → Option JValue
  | [], _ => none
  | (k, v) :: rest, key => if k = key then some v else lookupField rest key

/-- `Value::get` restricted to objects, as the engine uses it. -/
def JValue.get : JValue → String → Option JValue
  | .obj fields, key => lookupField fields key
  | _, _ => none

/-- `Value::as_str`. -/
def JValue.asStr : JValue → Option String
  | .str s => some s
  | _ => none

/-- `Value::as_bool`. -/
def JValue.asBool : JValue → Option Bool
  | .bool b => some b
  | _ => none

/-- `Value::as_object`. -/
def JValue.asObj : JValue → Option (List (String × JValue))
  | .obj fields => some fields
  | _ => none

/-- `commucat_proto::FrameType`: the variants the engine matches on, plus
a catch-all tag for the remaining variants of the external enum (which the
engine only ever meets in catch-all arms). -/
inductive FrameType where
  | hello
  | auth
  | ack
  | join
  | leave
  | msg
  | presence
  | error
  | other (tag : Nat)
deriving DecidableEq

/-- `commucat_proto::FramePayload`; `control` carries the
`ControlEnvelope`'s `properties` value directly and `blob` is the
source's raw byte payload variant. -/
inductive FramePayload where
  | control (properties : JValue)
  | blob (bytes : List Nat)

/-- `commucat_proto::Frame`. -/
structure Frame where
  channel_id : Nat
  sequence : Nat
  frame_type : FrameType
  payload : FramePayload

/-- `ClientEvent` from `src/engine.rs`. -/
inductive ClientEvent where
  | connected (session_id : String) (pairing_required : Bool)
  | disconnected (reason : String)
  | frame (f : Frame)
  | error (detail : String)
  | log (line : String)

/-- The fields of `config::ClientState` that `ActiveConnection::connect`
reads or writes. Hex-encoded key material is kept as `List Char` so the
real `decode_hex32` runs on it. -/
structure ClientState where
  device_id : String
  server_url : String
  private_key : List Char
  public_key : List Char
  noise_pattern : String
  prologue : String
  tls_ca_path : Option String
  server_static : Option (List Char)
  insecure : Bool
  traceparent : Option String
  user_handle : Option String
  user_display_name : Option String
  user_avatar_url : Option String
  user_id : Option String
deriving DecidableEq

/-- `ClientState::device_keypair` (`src/config.rs`): both keys must decode
as 32-byte hex. Returns `(public, private)`. -/
def device_keypair (s : ClientState) : Except String (List Nat × List Nat) :=
  match Hexutil.decode_hex32 s.private_key with
  | .error e => .error e
  | .ok priv =>
    match Hexutil.decode_hex32 s.public_key with
    | .error e => .error e
    | .ok pub => .ok (pub, priv)

/-- `commucat_crypto::HandshakePattern`, the two variants the client
accepts. -/
inductive HandshakePattern where
  | xk
  | ik
deriving DecidableEq

/-- Rust `char` ASCII uppercasing; the pattern labels this client
compares are ASCII, so this models `str::to_uppercase` faithfully on
every input the code meets (core's `String.toUpper` is not
kernel-reducible). -/
def rustCharUpper (c : Char) : Char :=
  if 97 ≤ c.toNat ∧ c.toNat ≤ 122 then Char.ofNat (c.toNat - 32) else c

/-- Rust `str::to_uppercase` (ASCII fragment). -/
def rustToUpper (s : String) : String :=
  String.mk (s.data.map rustCharUpper)

/-- `parse_pattern` from `src/engine.rs`. -/
def parse_pattern (pattern : String) : Except String HandshakePattern :=
  if rustToUpper pattern = "XK" then .ok .xk
  else if rustToUpper pattern = "IK" then .ok .ik
  else .error ("unsupported pattern: " ++ rustToUpper pattern)

/-- `control_payload` from `src/engine.rs`. -/
def control_payload : FramePayload → Except String JValue
  | .control properties => .ok properties
  | .blob _ => .error "expected control payload"

/-- `parse_handshake_ack` from `src/engine.rs`: `some required` iff the
control document's `handshake` field is the string `"ok"`, where
`required` is the `pairing_required` boolean defaulting to `false`. -/
def parse_handshake_ack (frame : Frame) : Option Bool :=
  match frame.payload with
  | .control properties =>
    if (((properties.get "handshake").bind JValue.asStr).map
        (fun v => v == "ok")).getD false then
      some (((properties.get "pairing_required").bind JValue.asBool).getD false)
    else
      none
  | .blob _ => none

/-- The result of `http::Uri::parse` (an external parser): the components
`ActiveConnection::connect` reads from the parsed value. -/
structure ParsedUri where
  scheme : Option String
  host : Option String
  authority : Option String
  port : Option Nat
  path_and_query : Option String
deriving DecidableEq

/-- Observable actions of one engine actor: network side effects, frame
transmissions, task spawns/aborts and the end-stream write. -/
inductive Act where
  | dnsLookup (addr : String)
  | tcpAttempt (addr : String)
  | tlsConnect
  | h2Handshake
  | spawnDriver
  | sendRequest
  | sendFrame (f : Frame)
  | spawnReader
  | persistState
  | sendEmptyEndStream
  | abortReader
  | abortDriver

/-- One step of input to the handshake loop. The byte buffer and the
codec's incomplete-buffer (`UnexpectedEof`) handling are abstracted: the
environment presents the sequence of complete frames the external codec
yields, or the terminal codec / transport failures, in arrival order. -/
inductive HsIncoming where
  | frame (f : Frame)
  | decodeFailure (e : String)
  | readFailure (e : String)
  | closed

/-- Connect-time environment: the outcome of every external call
`ActiveConnection::connect` makes, in the code's own vocabulary. Failure
messages produced by `anyhow::Context` are fixed strings of the source, so
those outcomes are booleans / options; failures whose text embeds the
underlying error carry that text. `Request::builder().body(())` and frame
encoding are treated as infallible here (encode failures are folded into
`sendFrameResult`). -/
structure ConnectEnv where
  parsedUri : Option ParsedUri
  dnsResult : Option (List String)
  tcpResult : String → Except String Unit
  tlsConnectorOk : Except String Unit
  serverNameOk : Bool
  tlsOk : Bool
  h2Ok : Bool
  sendRequestOk : Bool
  noiseKeys : List Nat × List Nat
  noiseInitOk : Bool
  msg1 : Option (List Nat)
  readMsg2 : List Nat → Option (List Nat)
  jsonParse : List Nat → Option JValue
  msg3 : Option (List Nat)
  sendFrameResult : Frame → Except String Unit
  responseOk : Bool
  saveOk : Bool
  incoming : List HsIncoming

/-- Handshake-loop state: the mutable locals of the `'handshake` loop plus
the profile the loop may update, and the number of messages the external
Noise object has processed (1 right after Hello is written; reads out of
order fail exactly as the real object's do). -/
structure HsState where
  profile : ClientState
  session_id : String
  next_sequence : Nat
  state_dirty : Bool
  noiseStep : Nat

/-- The state of an established `ActiveConnection` that the actor later
reads or mutates. -/
structure ConnState where
  session_id : String
  sequence : Nat
  pairing_required : Bool
deriving DecidableEq

/-- Outcome of running the handshake loop on a finite input prefix:
`pending` means the input was exhausted with the loop still awaiting
data (the real code would block on `recv_stream.data()`). -/
inductive HsOutcome where
  | success (conn : ConnState) (profile : ClientState) (dirty : Bool)
  | failure (e : String)
  | pending (st : HsState)

/-- One learned-field update, mirroring the
`if state.user_x.as_deref() != Some(v) { state.user_x = ...; dirty }`
blocks. -/
def updField (cur : Option String) (incoming : Option String) :
    Option String × Bool :=
  match incoming with
  | some v => if cur = some v then (cur, false) else (some v, true)
  | none => (cur, false)

/-- The user-identity merge inside the Auth arm of the handshake loop. -/
def mergeUser (profile : ClientState) (dirty : Bool) (value : JValue) :
    ClientState × Bool :=
  match (value.get "user").bind JValue.asObj with
  | none => (profile, dirty)
  | some user =>
    let (uid, d1) := updField profile.user_id
      ((lookupField user "id").bind JValue.asStr)
    let (uh, d2) := updField profile.user_handle
      ((lookupField user "handle").bind JValue.asStr)
    let (un, d3) := updField profile.user_display_name
      ((lookupField user "display_name").bind JValue.asStr)
    let (ua, d4) := updField profile.user_avatar_url
      ((lookupField user "avatar_url").bind JValue.asStr)
    ({ profile with
        user_id := uid
        user_handle := uh
        user_display_name := un
        user_avatar_url := ua },
     dirty || d1 || d2 || d3 || d4)

/-- The Auth arm of the handshake loop (`FrameType::Auth` branch):
validates the envelope, feeds the Noise object, merges learned user
fields, and produces the sequence-2 Auth reply frame. -/
def processAuth (env : ConnectEnv) (st : HsState) (f : Frame) :
    Except String (HsState × Frame) :=
  match control_payload f.payload with
  | .error e => .error e
  | .ok envelope =>
    match (envelope.get "handshake").bind JValue.asStr with
    | none => .error "missing handshake"
    | some handshake_hex =>
      match Hexutil.decode_hex handshake_hex.toList with
      | .error e => .error e
      | .ok handshake_bytes =>
        if st.noiseStep ≠ 1 then .error "noise message two"
        else
          match env.readMsg2 handshake_bytes with
          | none => .error "noise message two"
          | some payload =>
            let sessionStep : Except String (String × ClientState × Bool) :=
              if payload ≠ [] then
                match env.jsonParse payload with
                | none => .error "handshake payload decode"
                | some value =>
                  match (value.get "session").bind JValue.asStr with
                  | none => .error "session missing"
                  | some session =>
                    let (profile', dirty') :=
                      mergeUser st.profile st.state_dirty value
                    .ok (session, profile', dirty')
              else .ok (st.session_id, st.profile, st.state_dirty)
            match sessionStep with
            | .error e => .error e
            | .ok (session, profile', dirty') =>
              match env.msg3 with
              | none => .error "noise message three"
              | some final_bytes =>
                let rf : Frame :=
                  { channel_id := f.channel_id, sequence := 2,
                    frame_type := .auth,
                    payload := .control (.obj [("handshake",
                      .str (String.mk (Hexutil.encode_hex final_bytes)))]) }
                .ok ({ st with
                        profile := profile'
                        session_id := session
                        state_dirty := dirty'
                        next_sequence := 3
                        noiseStep := 3 }, rf)

/-- The `'handshake` loop of `ActiveConnection::connect`, at frame
granularity, returning the actions taken, the events published and the
outcome. -/
def hsLoop (env : ConnectEnv) : HsState → List HsIncoming →
    List Act × List ClientEvent × HsOutcome
  | st, [] => ([], [], .pending st)
  | st, inp :: rest =>
    match inp with
    | .closed => ([], [], .failure "server closed during handshake")
    | .readFailure e => ([], [], .failure ("handshake read failed: " ++ e))
    | .decodeFailure e =>
      ([], [], .failure ("handshake decode failed: " ++ e))
    | .frame f =>
      match f.frame_type with
      | .auth =>
        match processAuth env st f with
        | .error e => ([], [], .failure e)
        | .ok (st', rf) =>
          match env.sendFrameResult rf with
          | .error e => ([Act.sendFrame rf], [], .failure e)
          | .ok _ =>
            let (a, ev, out) := hsLoop env st' rest
            (Act.sendFrame rf :: a, ev, out)
      | .ack =>
        match parse_handshake_ack f with
        | some required =>
          let session := if st.session_id = "" then "unknown"
            else st.session_id
          let conn : ConnState :=
            { session_id := session, sequence := st.next_sequence,
              pairing_required := required }
          ([Act.spawnReader],
           (if required then
              [ClientEvent.log "сервер требует pairing для новых устройств"]
            else []) ++
             [ClientEvent.log ("handshake ok: session " ++ session)],
           .success conn st.profile st.state_dirty)
        | none =>
          let (a, ev, out) := hsLoop env st rest
          (a, ClientEvent.frame f :: ev, out)
      | .error =>
        ([], [ClientEvent.frame f], .failure "handshake rejected")
      | _ =>
        let (a, ev, out) := hsLoop env st rest
        (a, ClientEvent.frame f :: ev, out)

/-- `PROTOCOL_VERSION` of `commucat_proto` (external constant; its exact
value is irrelevant to every claim). -/
def PROTOCOL_VERSION : Nat := 1

/-- The scheme acceptance test of `ActiveConnection::connect`
(`uri.scheme_str().unwrap_or("https")`, lines 109–112): a missing scheme
defaults to `"https"`. -/
def scheme_check (uri : ParsedUri) : Except String Unit :=
  if (uri.scheme.getD "https") ≠ "https" then .error "only https is supported"
  else .ok ()

/-- The TCP candidate loop (lines 134–163): attempts in order, first
success wins, the last error feeds the aggregate failure message. -/
def tcpLoop (env : ConnectEnv) : List String → Option String →
    List Act × List ClientEvent × Except String Unit
  | [], lastErr =>
    ([], [],
     .error ("tcp connect failed: " ++ lastErr.getD "all sockets failed"))
  | cand :: rest, _ =>
    match env.tcpResult cand with
    | .ok _ =>
      ([Act.tcpAttempt cand], [ClientEvent.log ("connected to " ++ cand)],
       .ok ())
    | .error e =>
      let (a, ev, r) := tcpLoop env rest (some e)
      (Act.tcpAttempt cand :: a,
       ClientEvent.log ("connect attempt " ++ cand ++ " failed: " ++ e) :: ev,
       r)

/-- The transport bootstrap of `ActiveConnection::connect` (lines
108–199): URL checks, DNS, the TCP loop, TLS (connector build, server
name, handshake), the h2 handshake spawning the driver task, and the POST
request. The `authority`/`path` components only feed the abstracted
request builder and are not tracked. -/
def bootstrap (_state : ClientState) (env : ConnectEnv) :
    List Act × List ClientEvent × Except String Unit :=
  match env.parsedUri with
  | none => ([], [], .error "invalid server url")
  | some uri =>
    match scheme_check uri with
    | .error e => ([], [], .error e)
    | .ok _ =>
      match uri.host with
      | none => ([], [], .error "host missing")
      | some host =>
        let port := uri.port.getD 443
        let addr := host ++ ":" ++ toString port
        match env.dnsResult with
        | none => ([Act.dnsLookup addr], [], .error "dns lookup failed")
        | some addrs =>
          if addrs.isEmpty then
            ([Act.dnsLookup addr], [], .error "no address for server")
          else
            let (ta, tev, tres) := tcpLoop env addrs none
            let acts := Act.dnsLookup addr :: ta
            match tres with
            | .error e => (acts, tev, .error e)
            | .ok _ =>
              match env.tlsConnectorOk with
              | .error e => (acts, tev, .error e)
              | .ok _ =>
                if !env.serverNameOk then
                  (acts, tev, .error "invalid server name")
                else if !env.tlsOk then
                  (acts ++ [Act.tlsConnect], tev, .error "tls connect failed")
                else if !env.h2Ok then
                  (acts ++ [Act.tlsConnect, Act.h2Handshake], tev,
                   .error "h2 handshake failed")
                else if !env.sendRequestOk then
                  (acts ++ [Act.tlsConnect, Act.h2Handshake, Act.spawnDriver,
                     Act.sendRequest], tev, .error "send request")
                else
                  (acts ++ [Act.tlsConnect, Act.h2Handshake, Act.spawnDriver,
                     Act.sendRequest], tev, .ok ())

/-- Noise configuration and the first handshake message (lines 200–222):
device key decoding, pattern parsing, the required-remote-static check,
then the external `build_handshake` / first `write_message` calls.
Returns the local Noise public key and the Hello message bytes. -/
def noiseSetup (state : ClientState) (env : ConnectEnv) :
    Except String (List Nat × List Nat) :=
  match device_keypair state with
  | .error e => .error e
  | .ok _ =>
    match parse_pattern state.noise_pattern with
    | .error e => .error e
    | .ok p =>
      let remoteStep : Except String Unit :=
        if p = .ik ∨ p = .xk then
          match state.server_static with
          | none => .error "server_static required for this pattern"
          | some raw =>
            match Hexutil.decode_hex32 raw with
            | .error e => .error e
            | .ok _ => .ok ()
        else .ok ()
      match remoteStep with
      | .error e => .error e
      | .ok _ =>
        if !env.noiseInitOk then .error "noise init"
        else
          match env.msg1 with
          | none => .error "noise message one"
          | some hello_bytes => .ok (env.noiseKeys.2, hello_bytes)

/-- The Hello control document (lines 223–246). -/
def helloProps (state : ClientState) (noisePublic hello_bytes : List Nat) :
    List (String × JValue) :=
  let base := [
    ("protocol_version", JValue.num (Int.ofNat PROTOCOL_VERSION)),
    ("pattern", JValue.str (rustToUpper state.noise_pattern)),
    ("device_id", JValue.str state.device_id),
    ("client_static", JValue.str (String.mk (Hexutil.encode_hex noisePublic))),
    ("handshake", JValue.str (String.mk (Hexutil.encode_hex hello_bytes))),
    ("capabilities", JValue.arr [JValue.str "noise", JValue.str "zstd"])]
  match state.user_handle with
  | none => base
  | some handle =>
    let up := [("handle", JValue.str handle)] ++
      (match state.user_id with
       | some i => [("id", JValue.str i)]
       | none => []) ++
      (match state.user_display_name with
       | some n => [("display_name", JValue.str n)]
       | none => []) ++
      (match state.user_avatar_url with
       | some av => [("avatar_url", JValue.str av)]
       | none => [])
    base ++ [("user", JValue.obj up)]

/-- The Hello frame: channel 0, sequence 1, type Hello (lines 247–254). -/
def helloFrame (state : ClientState) (noisePublic hello_bytes : List Nat) :
    Frame :=
  { channel_id := 0, sequence := 1, frame_type := .hello,
    payload := .control (.obj (helloProps state noisePublic hello_bytes)) }

/-- The `'handshake` loop's starting state: empty session id, next
sequence 2, clean profile, Noise object one message in. -/
def initHsState (st : ClientState) : HsState :=
  { profile := st, session_id := "", next_sequence := 2,
    state_dirty := false, noiseStep := 1 }

/-- Result of one `ActiveConnection::connect` invocation; `pending` marks
an exhausted handshake input (the real call still suspended). -/
inductive ConnectResult where
  | success (conn : ConnState)
  | failure (e : String)
  | pending

/-- `ActiveConnection::connect` assembled from its phases, returning the
action trace, the published events (each in program order) and the
result. -/
def connectModel (state : ClientState) (env : ConnectEnv) :
    List Act × List ClientEvent × ConnectResult :=
  match bootstrap state env with
  | (a, ev, .error e) => (a, ev, .failure e)
  | (a, ev, .ok _) =>
    match noiseSetup state env with
    | .error e => (a, ev, .failure e)
    | .ok (noisePublic, hello_bytes) =>
      let hf := helloFrame state noisePublic hello_bytes
      let a := a ++ [Act.sendFrame hf]
      let ev := ev ++
        [ClientEvent.log ("handshake start for " ++ state.device_id)]
      match env.sendFrameResult hf with
      | .error e => (a, ev, .failure e)
      | .ok _ =>
        if !env.responseOk then (a, ev, .failure "handshake response")
        else
          match hsLoop env (initHsState state) env.incoming with
          | (la, lev, .pending _) => (a ++ la, ev ++ lev, .pending)
          | (la, lev, .failure e) => (a ++ la, ev ++ lev, .failure e)
          | (la, lev, .success conn _ dirty) =>
            if dirty then
              if env.saveOk then
                (a ++ la ++ [Act.persistState], ev ++ lev, .success conn)
              else
                (a ++ la ++ [Act.persistState], ev ++ lev,
                 .failure "persist client state")
            else (a ++ la, ev ++ lev, .success conn)

/-- `EngineCommand` from `src/engine.rs`. -/
inductive EngineCommand where
  | connect (state : ClientState)
  | disconnect
  | join (channel_id : Nat) (members : List String) (relay : Bool)
  | sendMessage (channel_id : Nat) (body : List Nat)
  | leave (channel_id : Nat)
  | presence (state : String)

/-- `ActiveConnection::next_sequence`: hands out the current counter and
increments it. -/
def next_sequence (c : ConnState) : Nat × ConnState :=
  (c.sequence, { c with sequence := c.sequence + 1 })

/-- The frame `send_join` builds. -/
def joinFrame (c : ConnState) (channel_id : Nat) (members : List String)
    (relay : Bool) : Frame × ConnState :=
  let (s, c') := next_sequence c
  ({ channel_id := channel_id, sequence := s, frame_type := .join,
     payload := .control (.obj [
       ("members", JValue.arr (members.map JValue.str)),
       ("relay", JValue.bool relay)]) }, c')

/-- The frame `send_leave` builds. -/
def leaveFrame (c : ConnState) (channel_id : Nat) : Frame × ConnState :=
  let (s, c') := next_sequence c
  ({ channel_id := channel_id, sequence := s, frame_type := .leave,
     payload := .control (.obj []) }, c')

/-- The frame `send_message` builds. -/
def msgFrame (c : ConnState) (channel_id : Nat) (body : List Nat) :
    Frame × ConnState :=
  let (s, c') := next_sequence c
  ({ channel_id := channel_id, sequence := s, frame_type := .msg,
     payload := .blob body }, c')

/-- The frame `send_presence` builds (always channel 0). -/
def presenceFrame (c : ConnState) (stateLabel : String) :
    Frame × ConnState :=
  let (s, c') := next_sequence c
  ({ channel_id := 0, sequence := s, frame_type := .presence,
     payload := .control (.obj [("state", JValue.str stateLabel)]) }, c')

/-- Result of one `engine_loop` iteration. `blocked` marks the one
situation a finite model cannot step past: a `Connect` whose handshake
input was exhausted, where the real actor stays suspended inside
`ActiveConnection::connect`. -/
structure StepResult where
  conn : Option ConnState
  acts : List Act
  events : List ClientEvent
  blocked : Bool

/-- The shared post-handshake send path of the four application commands:
the frame was already built with the next sequence number (consumed even
when the send fails), and a send failure becomes an `Error` event while
the connection stays in the slot. -/
def sendApp (env : ConnectEnv) (c' : ConnState) (f : Frame) : StepResult :=
  match env.sendFrameResult f with
  | .ok _ =>
    { conn := some c', acts := [Act.sendFrame f], events := [],
      blocked := false }
  | .error e =>
    { conn := some c', acts := [Act.sendFrame f],
      events := [ClientEvent.error e], blocked := false }

/-- The empty-slot rejection shared by `Join`, `SendMessage`, `Leave` and
`Presence`. -/
def noConn : StepResult :=
  { conn := none, acts := [],
    events := [ClientEvent.error "no active connection"], blocked := false }

/-- One iteration of `engine_loop` (lines 492–607) on a received command.
On `Disconnect` with an occupied slot the actions are the graceful
end-stream write of `shutdown` followed by the two task aborts of the
`Drop` impl, in that order. -/
def engineStep (conn : Option ConnState) (command : EngineCommand)
    (env : ConnectEnv) : StepResult :=
  match command with
  | .connect st =>
    match conn with
    | some c =>
      { conn := some c, acts := [],
        events := [ClientEvent.error "already connected"], blocked := false }
    | none =>
      match connectModel st env with
      | (a, ev, .success c) =>
        { conn := some c, acts := a,
          events := ev ++
            [ClientEvent.connected c.session_id c.pairing_required],
          blocked := false }
      | (a, ev, .failure e) =>
        { conn := none, acts := a,
          events := ev ++ [ClientEvent.error e], blocked := false }
      | (a, ev, .pending) =>
        { conn := none, acts := a, events := ev, blocked := true }
  | .disconnect =>
    match conn with
    | some _ =>
      { conn := none,
        acts := [Act.sendEmptyEndStream, Act.abortReader, Act.abortDriver],
        events := [ClientEvent.disconnected "disconnected"],
        blocked := false }
    | none =>
      { conn := none, acts := [], events := [], blocked := false }
  | .join channel_id members relay =>
    match conn with
    | some c =>
      let (f, c') := joinFrame c channel_id members relay
      sendApp env c' f
    | none => noConn
  | .sendMessage channel_id body =>
    match conn with
    | some c =>
      let (f, c') := msgFrame c channel_id body
      sendApp env c' f
    | none => noConn
  | .leave channel_id =>
    match conn with
    | some c =>
      let (f, c') := leaveFrame c channel_id
      sendApp env c' f
    | none => noConn
  | .presence stateLabel =>
    match conn with
    | some c =>
      let (f, c') := presenceFrame c stateLabel
      sendApp env c' f
    | none => noConn

/-- `engine_loop`: processes queued commands FIFO; when the queue closes
the loop returns and a still-held connection is dropped, which aborts the
two background tasks (the `Drop` impl) without any end-stream write. A
blocked `Connect` suspends the actor: nothing after it runs. -/
def engineRun : Option ConnState → List (EngineCommand × ConnectEnv) →
    List Act × List ClientEvent
  | conn, [] =>
    match conn with
    | some _ => ([Act.abortReader, Act.abortDriver], [])
    | none => ([], [])
  | conn, (command, env) :: rest =>
    let r := engineStep conn command env
    if r.blocked then (r.acts, r.events)
    else
      let (a2, ev2) := engineRun r.conn rest
      (r.acts ++ a2, r.events ++ ev2)

/-- Frames transmitted, read off an action trace. -/
def sentFrames (acts : List Act) : List Frame :=
  acts.filterMap (fun a => match a with
    | .sendFrame f => some f
    | _ => none)

/-- Outcome of one `Frame::decode` call on the reader's buffer (external
codec): a frame with its consumed byte count, the incomplete-buffer signal
(`CodecError::UnexpectedEof`), or a hard decode error with its debug
text. -/
inductive DecodeResult where
  | ok (f : Frame) (consumed : Nat)
  | incompleteEof
  | err (e : String)

/-- One `recv_stream.data()` outcome seen by the reader task. -/
inductive ReadChunk where
  | bytes (bs : List Nat)
  | readErr (e : String)
  | closed

/-- The reader's inner decode loop (`spawn_reader`, lines 652–672): drain
complete frames, stop on an incomplete buffer, and on a hard decode error
emit exactly one `Error` event, clear the whole buffer and break. `fuel`
bounds the recursion; any fuel above the buffer length suffices when each
decoded frame consumes at least one byte. -/
def drainBuffer (decode : List Nat → DecodeResult) :
    Nat → List Nat → List ClientEvent × List Nat
  | 0, buf => ([], buf)
  | fuel + 1, buf =>
    match decode buf with
    | .ok f consumed =>
      let (evs, buf') := drainBuffer decode fuel (buf.drop consumed)
      (ClientEvent.frame f :: evs, buf')
    | .incompleteEof => ([], buf)
    | .err e => ([ClientEvent.error ("decode error: " ++ e)], [])

/-- The reader task (`spawn_reader`): alternates draining the buffer with
awaiting transport data; a transport failure or clean close terminates it
with the corresponding events; exhausting the chunk list models the
reader suspended on `recv_stream.data()`, still alive. -/
def readerRun (decode : List Nat → DecodeResult) :
    List ReadChunk → List Nat → List ClientEvent
  | [], buf => (drainBuffer decode (buf.length + 1) buf).1
  | .bytes bs :: rest, buf =>
    let (evs, buf') := drainBuffer decode (buf.length + 1) buf
    evs ++ readerRun decode rest (buf' ++ bs)
  | .readErr e :: _, buf =>
    (drainBuffer decode (buf.length + 1) buf).1 ++
      [ClientEvent.error ("receive failed: " ++ e),
       ClientEvent.disconnected ("receive failed: " ++ e)]
  | .closed :: _, buf =>
    (drainBuffer decode (buf.length + 1) buf).1 ++
      [ClientEvent.disconnected "remote closed"]

/-- A concrete profile for witnesses: pattern IK with no pinned server
static key. -/
def sampleState : ClientState :=
  { device_id := "dev-1"
    server_url := "https://example.com"
    private_key := List.replicate 64 '0'
    public_key := List.replicate 64 '0'
    noise_pattern := "IK"
    prologue := "commucat"
    tls_ca_path := none
    server_static := none
    insecure := false
    traceparent := none
    user_handle := none
    user_display_name := none
    user_avatar_url := none
    user_id := none }

/-- `sampleState` with a pinned server static key, so the Noise setup
succeeds. -/
def okState : ClientState :=
  { sampleState with server_static := some (List.replicate 64 '0') }

/-- A concrete parsed URL. -/
def sampleUri : ParsedUri :=
  { scheme := some "https"
    host := some "example.com"
    authority := none
    port := none
    path_and_query := some "/connect" }

/-- A connect environment in which every external call succeeds and no
handshake input has arrived yet. -/
def sampleEnv : ConnectEnv :=
  { parsedUri := some sampleUri
    dnsResult := some ["93.184.216.34:443"]
    tcpResult := fun _ => .ok ()
    tlsConnectorOk := .ok ()
    serverNameOk := true
    tlsOk := true
    h2Ok := true
    sendRequestOk := true
    noiseKeys := ([], [])
    noiseInitOk := true
    msg1 := some [1]
    readMsg2 := fun _ => some []
    jsonParse := fun _ => none
    msg3 := some [2]
    sendFrameResult := fun _ => .ok ()
    responseOk := true
    saveOk := true
    incoming := [] }

/-- An Ack frame whose control document is exactly
`{"handshake":"ok"}`. -/
def ackOkFrame : Frame :=
  { channel_id := 0, sequence := 1, frame_type := .ack,
    payload := .control (.obj [("handshake", .str "ok")]) }

/-- `sampleEnv` whose handshake input is a single completing Ack, with no
Auth exchange before it. -/
def ackOnlyEnv : ConnectEnv :=
  { sampleEnv with incoming := [.frame ackOkFrame] }

/-- A toy codec for the reader witness: an empty buffer is incomplete, a
leading `0` is a hard decode error, anything else decodes as one frame
consuming the whole buffer. -/
def probeDecode : List Nat → DecodeResult
  | [] => .incompleteEof
  | 0 :: _ => .err "Invalid"
  | _ :: rest => .ok ⟨0, 5, .msg, .blob []⟩ (rest.length + 1)

/-- The sequence numbers that `k` successive application sends draw from
a connection through `next_sequence`. -/
def appSeqs : ConnState → Nat → List Nat
  | _, 0 => []
  | c, k + 1 =>
    let (s, c') := next_sequence c
    s :: appSeqs c' k

/-- An Ack frame whose control document is
`{"handshake":"ok","pairing_required":true}`. -/
def ackTrueFrame : Frame :=
  { channel_id := 0, sequence := 1, frame_type := .ack,
    payload := .control (.obj [("handshake", .str "ok"),
      ("pairing_required", .bool true)]) }

end Engine

set_option maxRecDepth 2048

namespace Hexutil

theorem nibble_decodes : ∀ v : Nat, v < 16 →
    decode_digit (nibble v).toNat = .ok v := by decide

theorem nibble_not_whitespace : ∀ v : Nat, v < 16 →
    (nibble v).isWhitespace = false := by decide

theorem nibble_lower_hex : ∀ v : Nat, v < 16 →
    isLowerHexDigit (nibble v) = true := by decide

theorem recombine_byte : ∀ x : Nat, x < 256 →
    (((x >>> 4) <<< 4) ||| (x &&& 15)) = x := by decide

theorem shift_lt (x : Nat) (h : x < 256) : x >>> 4 < 16 := by
  have hx : x >>> 4 = x / 16 := by
    rw [Nat.shiftRight_eq_div_pow]
  omega

theorem and_lt (x : Nat) : x &&& 15 < 16 := by
  have h : x &&& 15 ≤ 15 := Nat.and_le_right
  omega

theorem encode_mem_cases (b : List Nat) (c : Char) (hc : c ∈ encode_hex b) :
    ∃ x ∈ b, c = nibble (x >>> 4) ∨ c = nibble (x &&& 15) := by
  rw [encode_hex, List.mem_flatMap] at hc
  obtain ⟨x, hx, hcx⟩ := hc
  refine ⟨x, hx, ?_⟩
  simp only [List.mem_cons, List.not_mem_nil, or_false] at hcx
  exact hcx

theorem encode_all_hex (b : List Nat) (hb : ∀ x ∈ b, x < 256) :
    ∀ c ∈ encode_hex b, isLowerHexDigit c = true := by
  intro c hc
  obtain ⟨x, hx, hcase⟩ := encode_mem_cases b c hc
  have hx256 := hb x hx
  rcases hcase with h | h
  · exact h ▸ nibble_lower_hex _ (shift_lt x hx256)
  · exact h ▸ nibble_lower_hex _ (and_lt x)

theorem encode_no_ws (b : List Nat) (hb : ∀ x ∈ b, x < 256) :
    ∀ c ∈ encode_hex b, c.isWhitespace = false := by
  intro c hc
  obtain ⟨x, hx, hcase⟩ := encode_mem_cases b c hc
  have hx256 := hb x hx
  rcases hcase with h | h
  · exact h ▸ nibble_not_whitespace _ (shift_lt x hx256)
  · exact h ▸ nibble_not_whitespace _ (and_lt x)

theorem dropWhile_all_false {p : Char → Bool} :
    ∀ l : List Char, (∀ c ∈ l, p c = false) → l.dropWhile p = l
  | [], _ => rfl
  | c :: rest, h => by
    rw [List.dropWhile_cons]
    simp [h c (List.mem_cons_self c rest)]

theorem rustTrim_no_ws (s : List Char)
    (h : ∀ c ∈ s, c.isWhitespace = false) : rustTrim s = s := by
  unfold rustTrim
  rw [dropWhile_all_false s h,
    dropWhile_all_false s.reverse (fun c hc => h c (List.mem_reverse.mp hc)),
    List.reverse_reverse]

theorem encode_hex_length (b : List Nat) :
    (encode_hex b).length = 2 * b.length := by
  induction b with
  | nil => rfl
  | cons x rest ih =>
    have hshape : encode_hex (x :: rest) =
        nibble (x >>> 4) :: nibble (x &&& 15) :: encode_hex rest := by
      simp [encode_hex, List.flatMap_cons]
    rw [hshape]
    simp only [List.length_cons, ih]
    omega

theorem decodePairs_encode (b : List Nat) (hb : ∀ x ∈ b, x < 256) :
    decodePairs ((encode_hex b).map Char.toNat) = .ok b := by
  induction b with
  | nil => rfl
  | cons x rest ih =>
    have hx : x < 256 := hb x (List.mem_cons_self x rest)
    have hrest : ∀ y ∈ rest, y < 256 :=
      fun y hy => hb y (List.mem_cons_of_mem x hy)
    have hshape : (encode_hex (x :: rest)).map Char.toNat =
        (nibble (x >>> 4)).toNat :: (nibble (x &&& 15)).toNat ::
          (encode_hex rest).map Char.toNat := by
      simp [encode_hex, List.flatMap_cons]
    rw [hshape]
    simp only [decodePairs, nibble_decodes _ (shift_lt x hx),
      nibble_decodes _ (and_lt x), ih hrest, recombine_byte x hx]

end Hexutil

namespace Engine

theorem drainBuffer_nil (decode : List Nat → DecodeResult)
    (hnil : decode [] = .incompleteEof) :
    ∀ fuel, drainBuffer decode fuel [] = ([], []) := by
  intro fuel
  cases fuel with
  | zero => rfl
  | succ n => simp [drainBuffer, hnil]

theorem hsLoop_nil (env : ConnectEnv) (st : HsState) :
    hsLoop env st [] = ([], [], .pending st) := rfl

theorem hsLoop_error_frame (env : ConnectEnv) (st : HsState) (f : Frame)
    (rest : List HsIncoming) (hf : f.frame_type = .error) :
    hsLoop env st (.frame f :: rest) =
      ([], [ClientEvent.frame f], .failure "handshake rejected") := by
  simp [hsLoop, hf]

theorem hsLoop_auth_ok (env : ConnectEnv) (st : HsState) (f : Frame)
    (rest : List HsIncoming) (st' : HsState) (rf : Frame)
    (hf : f.frame_type = .auth)
    (hpa : processAuth env st f = .ok (st', rf))
    (hsend : env.sendFrameResult rf = .ok ()) :
    hsLoop env st (.frame f :: rest) =
      (Act.sendFrame rf :: (hsLoop env st' rest).1,
       (hsLoop env st' rest).2.1, (hsLoop env st' rest).2.2) := by
  rcases h2 : hsLoop env st' rest with ⟨a2, ev2, out2⟩
  simp [hsLoop, hf, hpa, hsend, h2]

theorem hsLoop_auth_err (env : ConnectEnv) (st : HsState) (f : Frame)
    (rest : List HsIncoming) (e : String) (hf : f.frame_type = .auth)
    (hpa : processAuth env st f = .error e) :
    hsLoop env st (.frame f :: rest) = ([], [], .failure e) := by
  simp [hsLoop, hf, hpa]

theorem hsLoop_auth_send_err (env : ConnectEnv) (st : HsState) (f : Frame)
    (rest : List HsIncoming) (st' : HsState) (rf : Frame) (e : String)
    (hf : f.frame_type = .auth)
    (hpa : processAuth env st f = .ok (st', rf))
    (hsend : env.sendFrameResult rf = .error e) :
    hsLoop env st (.frame f :: rest) =
      ([Act.sendFrame rf], [], .failure e) := by
  simp [hsLoop, hf, hpa, hsend]

theorem hsLoop_ack_complete (env : ConnectEnv) (st : HsState) (f : Frame)
    (rest : List HsIncoming) (required : Bool) (hf : f.frame_type = .ack)
    (hpk : parse_handshake_ack f = some required) :
    hsLoop env st (.frame f :: rest) =
      ([Act.spawnReader],
       (if required then
          [ClientEvent.log "сервер требует pairing для новых устройств"]
        else []) ++
         [ClientEvent.log ("handshake ok: session " ++
           (if st.session_id = "" then "unknown" else st.session_id))],
       .success
         { session_id := if st.session_id = "" then "unknown"
             else st.session_id,
           sequence := st.next_sequence, pairing_required := required }
         st.profile st.state_dirty) := by
  simp [hsLoop, hf, hpk]

theorem hsLoop_ack_other (env : ConnectEnv) (st : HsState) (f : Frame)
    (rest : List HsIncoming) (hf : f.frame_type = .ack)
    (hpk : parse_handshake_ack f = none) :
    hsLoop env st (.frame f :: rest) =
      ((hsLoop env st rest).1,
       ClientEvent.frame f :: (hsLoop env st rest).2.1,
       (hsLoop env st rest).2.2) := by
  rcases h2 : hsLoop env st rest with ⟨a2, ev2, out2⟩
  simp [hsLoop, hf, hpk, h2]

theorem hsLoop_other_frame (env : ConnectEnv) (st : HsState) (f : Frame)
    (rest : List HsIncoming) (hf : f.frame_type ≠ .auth)
    (hf2 : f.frame_type ≠ .ack) (hf3 : f.frame_type ≠ .error) :
    hsLoop env st (.frame f :: rest) =
      ((hsLoop env st rest).1,
       ClientEvent.frame f :: (hsLoop env st rest).2.1,
       (hsLoop env st rest).2.2) := by
  rcases h2 : hsLoop env st rest with ⟨a2, ev2, out2⟩
  cases hft : f.frame_type with
  | auth => exact absurd hft hf
  | ack => exact absurd hft hf2
  | error => exact absurd hft hf3
  | hello => simp [hsLoop, hft, h2]
  | join => simp [hsLoop, hft, h2]
  | leave => simp [hsLoop, hft, h2]
  | msg => simp [hsLoop, hft, h2]
  | presence => simp [hsLoop, hft, h2]
  | other t => simp [hsLoop, hft, h2]

theorem processAuth_ok (env : ConnectEnv) (st : HsState) (f : Frame)
    (st' : HsState) (rf : Frame)
    (h : processAuth env st f = .ok (st', rf)) :
    st.noiseStep = 1 ∧ rf.sequence = 2 ∧ rf.frame_type = .auth ∧
    st'.next_sequence = 3 ∧ st'.noiseStep = 3 := by
  unfold processAuth at h
  cases hcp : control_payload f.payload with
  | error e => simp only [hcp] at h; simp at h
  | ok envelope =>
    simp only [hcp] at h
    cases hhx : (envelope.get "handshake").bind JValue.asStr with
    | none => simp only [hhx] at h; simp at h
    | some hex =>
      simp only [hhx] at h
      cases hdx : Hexutil.decode_hex hex.toList with
      | error e => simp only [hdx] at h; simp at h
      | ok hbytes =>
        simp only [hdx] at h
        by_cases hns : st.noiseStep ≠ 1
        · rw [if_pos hns] at h
          simp at h
        · rw [if_neg hns] at h
          push_neg at hns
          cases hrm : env.readMsg2 hbytes with
          | none => simp only [hrm] at h; simp at h
          | some payload =>
            simp only [hrm] at h
            by_cases hpl : payload ≠ []
            · rw [if_pos hpl] at h
              cases hjp : env.jsonParse payload with
              | none => simp only [hjp] at h; simp at h
              | some value =>
                simp only [hjp] at h
                cases hsv : (value.get "session").bind JValue.asStr with
                | none => simp only [hsv] at h; simp at h
                | some session =>
                  simp only [hsv] at h
                  cases hm3 : env.msg3 with
                  | none => simp only [hm3] at h; simp at h
                  | some fb =>
                    simp only [hm3, Except.ok.injEq, Prod.mk.injEq] at h
                    obtain ⟨hst, hrf⟩ := h
                    refine ⟨hns, ?_, ?_, ?_, ?_⟩ <;>
                      simp [← hst, ← hrf]
            · rw [if_neg hpl] at h
              cases hm3 : env.msg3 with
              | none => simp only [hm3] at h; simp at h
              | some fb =>
                simp only [hm3, Except.ok.injEq, Prod.mk.injEq] at h
                obtain ⟨hst, hrf⟩ := h
                refine ⟨hns, ?_, ?_, ?_, ?_⟩ <;>
                  simp [← hst, ← hrf]

theorem hsLoop_success_ack (env : ConnectEnv) :
    ∀ (incoming : List HsIncoming) (st : HsState) (acts : List Act)
      (evs : List ClientEvent) (conn : ConnState) (profile : ClientState)
      (dirty : Bool),
    hsLoop env st incoming = (acts, evs, .success conn profile dirty) →
    ∃ f, HsIncoming.frame f ∈ incoming ∧
      parse_handshake_ack f = some conn.pairing_required := by
  intro incoming
  induction incoming with
  | nil =>
    intro st acts evs conn profile dirty h
    rw [hsLoop_nil] at h
    simp at h
  | cons inp rest ih =>
    intro st acts evs conn profile dirty h
    cases inp with
    | closed => simp [hsLoop] at h
    | readFailure e => simp [hsLoop] at h
    | decodeFailure e => simp [hsLoop] at h
    | frame f =>
      by_cases hau : f.frame_type = .auth
      · cases hpa : processAuth env st f with
        | error e =>
          rw [hsLoop_auth_err env st f rest e hau hpa] at h
          simp at h
        | ok pr =>
          obtain ⟨st', rf⟩ := pr
          cases hsend : env.sendFrameResult rf with
          | error e =>
            rw [hsLoop_auth_send_err env st f rest st' rf e hau hpa hsend]
              at h
            simp at h
          | ok u =>
            cases u
            rw [hsLoop_auth_ok env st f rest st' rf hau hpa hsend] at h
            rcases h2 : hsLoop env st' rest with ⟨a2, ev2, out2⟩
            rw [h2] at h
            simp only [Prod.mk.injEq] at h
            obtain ⟨ha, hev, hout⟩ := h
            rw [hout] at h2
            obtain ⟨f', hmem, hpk⟩ :=
              ih st' a2 ev2 conn profile dirty h2
            exact ⟨f', List.mem_cons_of_mem _ hmem, hpk⟩
      · by_cases hak : f.frame_type = .ack
        · cases hpk : parse_handshake_ack f with
          | some required =>
            rw [hsLoop_ack_complete env st f rest required hak hpk] at h
            simp only [Prod.mk.injEq] at h
            obtain ⟨ha, hev, hout⟩ := h
            injection hout with hconn hprof hdirty
            refine ⟨f, List.mem_cons_self _ _, ?_⟩
            rw [hpk, ← hconn]
          | none =>
            rw [hsLoop_ack_other env st f rest hak hpk] at h
            rcases h2 : hsLoop env st rest with ⟨a2, ev2, out2⟩
            rw [h2] at h
            simp only [Prod.mk.injEq] at h
            obtain ⟨ha, hev, hout⟩ := h
            rw [hout] at h2
            obtain ⟨f', hmem, hpk'⟩ :=
              ih st a2 ev2 conn profile dirty h2
            exact ⟨f', List.mem_cons_of_mem _ hmem, hpk'⟩
        · by_cases her : f.frame_type = .error
          · rw [hsLoop_error_frame env st f rest her] at h
            simp at h
          · rw [hsLoop_other_frame env st f rest hau hak her] at h
            rcases h2 : hsLoop env st rest with ⟨a2, ev2, out2⟩
            rw [h2] at h
            simp only [Prod.mk.injEq] at h
            obtain ⟨ha, hev, hout⟩ := h
            rw [hout] at h2
            obtain ⟨f', hmem, hpk'⟩ :=
              ih st a2 ev2 conn profile dirty h2
            exact ⟨f', List.mem_cons_of_mem _ hmem, hpk'⟩

theorem appSeqs_eq_range' : ∀ (k : Nat) (c : ConnState),
    appSeqs c k = List.range' c.sequence k := by
  intro k
  induction k with
  | zero => intro c; rfl
  | succ n ih =>
    intro c
    rw [show appSeqs c (n + 1) =
      c.sequence :: appSeqs { c with sequence := c.sequence + 1 } n from rfl]
    rw [ih, List.range'_succ]

theorem sentFrames_append (xs ys : List Act) :
    sentFrames (xs ++ ys) = sentFrames xs ++ sentFrames ys :=
  List.filterMap_append xs ys _

theorem hsLoop_sent (env : ConnectEnv) :
    ∀ (incoming : List HsIncoming) (st : HsState) (acts : List Act)
      (evs : List ClientEvent) (conn : ConnState) (profile : ClientState)
      (dirty : Bool),
    (st.noiseStep = 1 ∧ st.next_sequence = 2) ∨
      (st.noiseStep = 3 ∧ st.next_sequence = 3) →
    hsLoop env st incoming = (acts, evs, .success conn profile dirty) →
    (sentFrames acts = [] ∧ conn.sequence = st.next_sequence) ∨
    (st.next_sequence = 2 ∧ conn.sequence = 3 ∧
      ∃ rf, sentFrames acts = [rf] ∧ rf.sequence = 2 ∧
        rf.frame_type = .auth) := by
  intro incoming
  induction incoming with
  | nil =>
    intro st acts evs conn profile dirty hinv h
    rw [hsLoop_nil] at h
    simp at h
  | cons inp rest ih =>
    intro st acts evs conn profile dirty hinv h
    cases inp with
    | closed => simp [hsLoop] at h
    | readFailure e => simp [hsLoop] at h
    | decodeFailure e => simp [hsLoop] at h
    | frame f =>
      by_cases hau : f.frame_type = .auth
      · cases hpa : processAuth env st f with
        | error e =>
          rw [hsLoop_auth_err env st f rest e hau hpa] at h
          simp at h
        | ok pr =>
          obtain ⟨st', rf⟩ := pr
          cases hsend : env.sendFrameResult rf with
          | error e =>
            rw [hsLoop_auth_send_err env st f rest st' rf e hau hpa hsend]
              at h
            simp at h
          | ok u =>
            cases u
            obtain ⟨hstep, hseq2, hauth, hnext3, hstep3⟩ :=
              processAuth_ok env st f st' rf hpa
            have hnext2 : st.next_sequence = 2 := by
              rcases hinv with ⟨_, h2⟩ | ⟨h1, _⟩
              · exact h2
              · omega
            rw [hsLoop_auth_ok env st f rest st' rf hau hpa hsend] at h
            rcases h2 : hsLoop env st' rest with ⟨a2, ev2, out2⟩
            rw [h2] at h
            simp only [Prod.mk.injEq] at h
            obtain ⟨ha, hev, hout⟩ := h
            rw [hout] at h2
            have hrec := ih st' a2 ev2 conn profile dirty
              (Or.inr ⟨hstep3, hnext3⟩) h2
            rcases hrec with ⟨hsf, hcs⟩ | ⟨hn2, _, _⟩
            · refine Or.inr ⟨hnext2, by rw [hcs, hnext3], rf, ?_, hseq2,
                hauth⟩
              rw [← ha]
              rw [show sentFrames (Act.sendFrame rf :: a2) =
                rf :: sentFrames a2 from rfl, hsf]
            · omega
      · by_cases hak : f.frame_type = .ack
        · cases hpk : parse_handshake_ack f with
          | some required =>
            rw [hsLoop_ack_complete env st f rest required hak hpk] at h
            simp only [Prod.mk.injEq] at h
            obtain ⟨ha, hev, hout⟩ := h
            injection hout with hconn hprof hdirty
            refine Or.inl ⟨?_, ?_⟩
            · rw [← ha]
              rfl
            · rw [← hconn]
          | none =>
            rw [hsLoop_ack_other env st f rest hak hpk] at h
            rcases h2 : hsLoop env st rest with ⟨a2, ev2, out2⟩
            rw [h2] at h
            simp only [Prod.mk.injEq] at h
            obtain ⟨ha, hev, hout⟩ := h
            rw [hout] at h2
            have hrec := ih st a2 ev2 conn profile dirty hinv h2
            rw [← ha]
            exact hrec
        · by_cases her : f.frame_type = .error
          · rw [hsLoop_error_frame env st f rest her] at h
            simp at h
          · rw [hsLoop_other_frame env st f rest hau hak her] at h
            rcases h2 : hsLoop env st rest with ⟨a2, ev2, out2⟩
            rw [h2] at h
            simp only [Prod.mk.injEq] at h
            obtain ⟨ha, hev, hout⟩ := h
            rw [hout] at h2
            have hrec := ih st a2 ev2 conn profile dirty hinv h2
            rw [← ha]
            exact hrec

theorem hsLoop_append_pending (env : ConnectEnv) :
    ∀ (xs : List HsIncoming) (st st2 : HsState) (a1 : List Act)
      (e1 : List ClientEvent),
    hsLoop env st xs = (a1, e1, .pending st2) →
    ∀ ys, hsLoop env st (xs ++ ys) =
      (a1 ++ (hsLoop env st2 ys).1, e1 ++ (hsLoop env st2 ys).2.1,
       (hsLoop env st2 ys).2.2) := by
  intro xs
  induction xs with
  | nil =>
    intro st st2 a1 e1 h ys
    rw [hsLoop_nil] at h
    simp only [Prod.mk.injEq] at h
    obtain ⟨ha, he, hp⟩ := h
    injection hp with hst
    rw [List.nil_append, ← ha, ← he, hst]
    simp
  | cons inp rest ih =>
    intro st st2 a1 e1 h ys
    cases inp with
    | closed => simp [hsLoop] at h
    | readFailure e => simp [hsLoop] at h
    | decodeFailure e => simp [hsLoop] at h
    | frame f =>
      by_cases hau : f.frame_type = .auth
      · cases hpa : processAuth env st f with
        | error e =>
          rw [hsLoop_auth_err env st f rest e hau hpa] at h
          simp at h
        | ok pr =>
          obtain ⟨stA, rf⟩ := pr
          cases hsend : env.sendFrameResult rf with
          | error e =>
            rw [hsLoop_auth_send_err env st f rest stA rf e hau hpa hsend]
              at h
            simp at h
          | ok u =>
            cases u
            rw [hsLoop_auth_ok env st f rest stA rf hau hpa hsend] at h
            rcases h2 : hsLoop env stA rest with ⟨a2, ev2, out2⟩
            rw [h2] at h
            simp only [Prod.mk.injEq] at h
            obtain ⟨ha, hev, hout⟩ := h
            rw [hout] at h2
            have hrec := ih stA st2 a2 ev2 h2 ys
            rw [List.cons_append,
              hsLoop_auth_ok env st f (rest ++ ys) stA rf hau hpa hsend,
              hrec, ← ha, ← hev]
            simp
      · by_cases hak : f.frame_type = .ack
        · cases hpk : parse_handshake_ack f with
          | some required =>
            rw [hsLoop_ack_complete env st f rest required hak hpk] at h
            simp at h
          | none =>
            rw [hsLoop_ack_other env st f rest hak hpk] at h
            rcases h2 : hsLoop env st rest with ⟨a2, ev2, out2⟩
            rw [h2] at h
            simp only [Prod.mk.injEq] at h
            obtain ⟨ha, hev, hout⟩ := h
            rw [hout] at h2
            have hrec := ih st st2 a2 ev2 h2 ys
            rw [List.cons_append,
              hsLoop_ack_other env st f (rest ++ ys) hak hpk,
              hrec, ← ha, ← hev]
            simp
        · by_cases her : f.frame_type = .error
          · rw [hsLoop_error_frame env st f rest her] at h
            simp at h
          · rw [hsLoop_other_frame env st f rest hau hak her] at h
            rcases h2 : hsLoop env st rest with ⟨a2, ev2, out2⟩
            rw [h2] at h
            simp only [Prod.mk.injEq] at h
            obtain ⟨ha, hev, hout⟩ := h
            rw [hout] at h2
            have hrec := ih st st2 a2 ev2 h2 ys
            rw [List.cons_append,
              hsLoop_other_frame env st f (rest ++ ys) hau hak her,
              hrec, ← ha, ← hev]
            simp

theorem tcpLoop_no_frames (env : ConnectEnv) :
    ∀ (cands : List String) (lastE : Option String),
    sentFrames (tcpLoop env cands lastE).1 = [] := by
  intro cands
  induction cands with
  | nil => intro lastE; rfl
  | cons c rest ih =>
    intro lastE
    cases htc : env.tcpResult c with
    | ok u =>
      cases u
      simp [tcpLoop, htc, sentFrames]
    | error e =>
      rcases h2 : tcpLoop env rest (some e) with ⟨a2, ev2, r2⟩
      have hrec := ih (some e)
      rw [h2] at hrec
      rw [show (tcpLoop env (c :: rest) lastE).1 =
        Act.tcpAttempt c :: a2 from by simp [tcpLoop, htc, h2]]
      rw [show sentFrames (Act.tcpAttempt c :: a2) = sentFrames a2 from rfl]
      exact hrec

theorem bootstrap_no_frames (st : ClientState) (env : ConnectEnv) :
    sentFrames (bootstrap st env).1 = [] := by
  rcases hpu : env.parsedUri with _ | uri
  · simp [bootstrap, hpu, sentFrames]
  · rcases hsc : scheme_check uri with e | u
    · simp [bootstrap, hpu, hsc, sentFrames]
    · cases u
      rcases hh : uri.host with _ | host
      · simp [bootstrap, hpu, hsc, hh, sentFrames]
      · rcases hd : env.dnsResult with _ | addrs
        · simp [bootstrap, hpu, hsc, hh, hd, sentFrames]
        · rcases htl : tcpLoop env addrs none with ⟨ta, tev, tres⟩
          have hta : sentFrames ta = [] := by
            have hx := tcpLoop_no_frames env addrs none
            rw [htl] at hx
            exact hx
          cases he : addrs.isEmpty with
          | true => simp [bootstrap, hpu, hsc, hh, hd, he, sentFrames]
          | false =>
            cases tres with
            | error e =>
              simp only [bootstrap, hpu, hsc, hh, hd, he, htl,
                Bool.false_eq_true, if_false]
              simpa [sentFrames, List.filterMap_cons] using hta
            | ok u2 =>
              cases u2
              rcases htc : env.tlsConnectorOk with e | u3
              · simp only [bootstrap, hpu, hsc, hh, hd, he, htl, htc,
                  Bool.false_eq_true, if_false]
                simpa [sentFrames, List.filterMap_cons] using hta
              · cases u3
                cases hsn : env.serverNameOk <;>
                  cases htls : env.tlsOk <;>
                    cases hh2 : env.h2Ok <;>
                      cases hsr : env.sendRequestOk <;>
                        · simp only [bootstrap, hpu, hsc, hh, hd, he, htl,
                            htc, hsn, htls, hh2, hsr]
                          simpa [sentFrames, List.filterMap_cons,
                            List.filterMap_append] using hta

theorem connectModel_success_decomp (st : ClientState) (env : ConnectEnv)
    (acts : List Act) (evs : List ClientEvent) (conn : ConnState)
    (h : connectModel st env = (acts, evs, .success conn)) :
    ∃ ba bev np hb la lev profile dirty tailActs,
      bootstrap st env = (ba, bev, .ok ()) ∧
      noiseSetup st env = .ok (np, hb) ∧
      hsLoop env (initHsState st) env.incoming =
        (la, lev, .success conn profile dirty) ∧
      acts = (ba ++ [Act.sendFrame (helloFrame st np hb)]) ++ la ++
        tailActs ∧
      sentFrames tailActs = [] := by
  rcases hb : bootstrap st env with ⟨ba, bev, bres⟩
  cases bres with
  | error e =>
    have hcm : connectModel st env = (ba, bev, .failure e) := by
      simp [connectModel, hb]
    rw [hcm] at h
    simp at h
  | ok u =>
    cases u
    cases hns : noiseSetup st env with
    | error e =>
      have hcm : connectModel st env = (ba, bev, .failure e) := by
        simp [connectModel, hb, hns]
      rw [hcm] at h
      simp at h
    | ok pr =>
      obtain ⟨np, hbytes⟩ := pr
      cases hsf : env.sendFrameResult (helloFrame st np hbytes) with
      | error e =>
        have hcm : connectModel st env =
            (ba ++ [Act.sendFrame (helloFrame st np hbytes)],
             bev ++ [ClientEvent.log ("handshake start for " ++
               st.device_id)], .failure e) := by
          simp [connectModel, hb, hns, hsf]
        rw [hcm] at h
        simp at h
      | ok u2 =>
        cases u2
        cases hresp : env.responseOk with
        | false =>
          have hcm : connectModel st env =
              (ba ++ [Act.sendFrame (helloFrame st np hbytes)],
               bev ++ [ClientEvent.log ("handshake start for " ++
                 st.device_id)], .failure "handshake response") := by
            simp [connectModel, hb, hns, hsf, hresp]
          rw [hcm] at h
          simp at h
        | true =>
          rcases hl : hsLoop env (initHsState st) env.incoming
            with ⟨la, lev, lout⟩
          cases lout with
          | pending st2 =>
            have hcm : connectModel st env =
                ((ba ++ [Act.sendFrame (helloFrame st np hbytes)]) ++ la,
                 (bev ++ [ClientEvent.log ("handshake start for " ++
                   st.device_id)]) ++ lev, .pending) := by
              simp [connectModel, hb, hns, hsf, hresp, hl]
            rw [hcm] at h
            simp at h
          | failure e =>
            have hcm : connectModel st env =
                ((ba ++ [Act.sendFrame (helloFrame st np hbytes)]) ++ la,
                 (bev ++ [ClientEvent.log ("handshake start for " ++
                   st.device_id)]) ++ lev, .failure e) := by
              simp [connectModel, hb, hns, hsf, hresp, hl]
            rw [hcm] at h
            simp at h
          | success conn2 profile dirty =>
            cases hdirty : dirty with
            | true =>
              cases hsave : env.saveOk with
              | false =>
                have hcm : connectModel st env =
                    ((ba ++ [Act.sendFrame (helloFrame st np hbytes)]) ++
                       la ++ [Act.persistState],
                     (bev ++ [ClientEvent.log ("handshake start for " ++
                       st.device_id)]) ++ lev,
                     .failure "persist client state") := by
                  simp [connectModel, hb, hns, hsf, hresp, hl, hdirty,
                    hsave]
                rw [hcm] at h
                simp at h
              | true =>
                have hcm : connectModel st env =
                    ((ba ++ [Act.sendFrame (helloFrame st np hbytes)]) ++
                       la ++ [Act.persistState],
                     (bev ++ [ClientEvent.log ("handshake start for " ++
                       st.device_id)]) ++ lev, .success conn2) := by
                  simp [connectModel, hb, hns, hsf, hresp, hl, hdirty,
                    hsave]
                rw [hcm] at h
                simp only [Prod.mk.injEq] at h
                obtain ⟨ha, hev, hout⟩ := h
                injection hout with hconn
                refine ⟨ba, bev, np, hbytes, la, lev, profile, true,
                  [Act.persistState], rfl, rfl, ?_, ha.symm, rfl⟩
                rw [hconn]
            | false =>
              have hcm : connectModel st env =
                  ((ba ++ [Act.sendFrame (helloFrame st np hbytes)]) ++ la,
                   (bev ++ [ClientEvent.log ("handshake start for " ++
                     st.device_id)]) ++ lev, .success conn2) := by
                simp [connectModel, hb, hns, hsf, hresp, hl, hdirty]
              rw [hcm] at h
              simp only [Prod.mk.injEq] at h
              obtain ⟨ha, hev, hout⟩ := h
              injection hout with hconn
              refine ⟨ba, bev, np, hbytes, la, lev, profile, false, [],
                rfl, rfl, ?_, ?_, rfl⟩
              · rw [hconn]
              · rw [← ha, List.append_nil]

end Engine

/-- C9: for every byte sequence `b`, `decode_hex (encode_hex b) = Ok b`;
moreover the encoding has even length and consists of lowercase hex
digits (so `decode_hex` accepts it). -/
theorem c9_hex_roundtrip (b : List Nat) (h : ∀ x ∈ b, x < 256) :
    Hexutil.decode_hex (Hexutil.encode_hex b) = .ok b ∧
    (Hexutil.encode_hex b).length % 2 = 0 ∧
    ∀ c ∈ Hexutil.encode_hex b, Hexutil.isLowerHexDigit c = true := by
  refine ⟨?_, ?_, Hexutil.encode_all_hex b h⟩
  · unfold Hexutil.decode_hex
    rw [Hexutil.rustTrim_no_ws _ (Hexutil.encode_no_ws b h)]
    rw [if_neg]
    · exact Hexutil.decodePairs_encode b h
    · rw [Hexutil.encode_hex_length]
      omega
  · rw [Hexutil.encode_hex_length]
    omega

/-- C9 witness: the round trip evaluated on the bytes `de ad be ef`. -/
theorem c9_hex_roundtrip_witness :
    (∀ x ∈ [222, 173, 190, 239], x < 256) ∧
    Hexutil.decode_hex (Hexutil.encode_hex [222, 173, 190, 239]) =
      .ok [222, 173, 190, 239] :=
  ⟨by decide, (c9_hex_roundtrip [222, 173, 190, 239] (by decide)).1⟩

/-- C10: a parsed server URL with no scheme is treated as https by the
scheme check of `ActiveConnection::connect` and is not rejected — the
attempt proceeds to the host check — while an explicit scheme other than
https is rejected with the configuration error "only https is
supported". -/
theorem c10_scheme_default (uri : Engine.ParsedUri) :
    (uri.scheme = none → Engine.scheme_check uri = .ok ()) ∧
    (∀ s, uri.scheme = some s → s ≠ "https" →
      Engine.scheme_check uri = .error "only https is supported") ∧
    (∀ st env, env.parsedUri = some uri → uri.scheme = none →
      uri.host = none →
      Engine.connectModel st env = ([], [], .failure "host missing")) := by
  refine ⟨?_, ?_, ?_⟩
  · intro h
    simp [Engine.scheme_check, h]
  · intro s hs hne
    simp [Engine.scheme_check, hs, hne]
  · intro st env hp hs hh
    simp [Engine.connectModel, Engine.bootstrap, Engine.scheme_check,
      hp, hs, hh]

/-- C10 witness: the scheme check accepts a fully bare URI and `connect`
proceeds to fail on the missing host instead. -/
theorem c10_scheme_default_witness :
    Engine.scheme_check ⟨none, none, none, none, none⟩ = .ok () ∧
    Engine.connectModel Engine.sampleState
      { Engine.sampleEnv with parsedUri := some ⟨none, none, none, none, none⟩ } =
      ([], [], .failure "host missing") := by
  have h := c10_scheme_default ⟨none, none, none, none, none⟩
  exact ⟨h.1 rfl, h.2.2 Engine.sampleState _ rfl rfl rfl⟩

/-- C2 (amended): `Join`, `SendMessage`, `Leave` and `Presence` on an
empty slot each emit exactly one `Error{"no active connection"}`, send no
frame and leave the state unchanged; `Disconnect` on an empty slot is a
silent no-op (no event at all, no frame, state unchanged). -/
theorem c2_empty_slot (env : Engine.ConnectEnv) (ch : Nat)
    (members : List String) (relay : Bool) (body : List Nat) (p : String) :
    Engine.engineStep none (.join ch members relay) env = Engine.noConn ∧
    Engine.engineStep none (.sendMessage ch body) env = Engine.noConn ∧
    Engine.engineStep none (.leave ch) env = Engine.noConn ∧
    Engine.engineStep none (.presence p) env = Engine.noConn ∧
    Engine.noConn =
      { conn := none, acts := [],
        events := [Engine.ClientEvent.error "no active connection"],
        blocked := false } ∧
    Engine.engineStep none .disconnect env =
      { conn := none, acts := [], events := [], blocked := false } :=
  ⟨rfl, rfl, rfl, rfl, rfl, rfl⟩

/-- C2 counterexample: `Disconnect` on an empty slot publishes no event
at all, in particular not `Error{"no active connection"}`, refuting the
claim's inclusion of `Disconnect`. -/
theorem c2_disconnect_counterexample :
    (Engine.engineStep none .disconnect Engine.sampleEnv).events = [] ∧
    ([] : List Engine.ClientEvent) ≠
      [Engine.ClientEvent.error "no active connection"] :=
  ⟨rfl, by simp⟩

/-- C4: `Connect` while the slot is occupied emits exactly one
`Error{"already connected"}`, takes no action (no connect attempt), keeps
the very same connection in the slot, and that connection stays
addressable: a later `SendMessage` transmits a frame carrying its
sequence counter. -/
theorem c4_already_connected (c : Engine.ConnState)
    (st : Engine.ClientState) (env env2 : Engine.ConnectEnv)
    (ch : Nat) (body : List Nat) :
    Engine.engineStep (some c) (.connect st) env =
      { conn := some c, acts := [],
        events := [Engine.ClientEvent.error "already connected"],
        blocked := false } ∧
    (Engine.engineStep (some c) (.sendMessage ch body) env2).acts =
      [Engine.Act.sendFrame
        { channel_id := ch, sequence := c.sequence, frame_type := .msg,
          payload := .blob body }] := by
  refine ⟨rfl, ?_⟩
  show (Engine.sendApp env2 _ _).acts = _
  unfold Engine.sendApp
  cases env2.sendFrameResult _ <;> rfl

/-- C8 (amended): explicit `Disconnect` sends the empty end-stream write
and then unconditionally aborts the reader and driver tasks; actor
shutdown with a live connection aborts both tasks but performs no
graceful-close write; and no replacement path exists, because `Connect`
while occupied leaves the slot untouched. -/
theorem c8_destroy_paths (c : Engine.ConnState) (env : Engine.ConnectEnv)
    (st : Engine.ClientState) :
    Engine.engineStep (some c) .disconnect env =
      { conn := none,
        acts := [Engine.Act.sendEmptyEndStream, Engine.Act.abortReader,
          Engine.Act.abortDriver],
        events := [Engine.ClientEvent.disconnected "disconnected"],
        blocked := false } ∧
    Engine.engineRun (some c) [] =
      ([Engine.Act.abortReader, Engine.Act.abortDriver], []) ∧
    (Engine.engineStep (some c) (.connect st) env).conn = some c :=
  ⟨rfl, rfl, rfl⟩

/-- C8 counterexample: on actor shutdown (command queue closed) with a
live connection, the teardown aborts both tasks but the action trace
contains no empty stream-terminating write, refuting "on every path … an
empty, stream-terminating write is sent". -/
theorem c8_shutdown_counterexample :
    Engine.engineRun (some ⟨"s", 3, false⟩) [] =
      ([Engine.Act.abortReader, Engine.Act.abortDriver], []) ∧
    Engine.Act.sendEmptyEndStream ∉
      [Engine.Act.abortReader, Engine.Act.abortDriver] :=
  ⟨rfl, by simp⟩

/-- C7: a hard decode error in the inbound reader yields exactly one
`Error` event, discards the whole accumulation buffer, and the reader
keeps reading: a following chunk holding one well-formed frame is still
decoded and delivered as a `Frame` event. -/
theorem c7_reader_recovers (decode : List Nat → Engine.DecodeResult)
    (buf bs : List Nat) (e : String) (f : Engine.Frame)
    (hbuf : decode buf = .err e)
    (hnil : decode [] = .incompleteEof)
    (hbs : decode bs = .ok f bs.length) :
    Engine.drainBuffer decode (buf.length + 1) buf =
      ([Engine.ClientEvent.error ("decode error: " ++ e)], []) ∧
    Engine.readerRun decode [.bytes bs] buf =
      [Engine.ClientEvent.error ("decode error: " ++ e),
       Engine.ClientEvent.frame f] := by
  have hdrain : Engine.drainBuffer decode (buf.length + 1) buf =
      ([Engine.ClientEvent.error ("decode error: " ++ e)], []) := by
    simp [Engine.drainBuffer, hbuf]
  have hbsdrain : Engine.drainBuffer decode (bs.length + 1) bs =
      ([Engine.ClientEvent.frame f], []) := by
    simp [Engine.drainBuffer, hbs, List.drop_length,
      Engine.drainBuffer_nil decode hnil]
  refine ⟨hdrain, ?_⟩
  simp [Engine.readerRun, hdrain, hbsdrain]

/-- C7 witness: the reader, holding a poisoned buffer, emits one decode
error and still delivers the next well-formed frame. -/
theorem c7_reader_recovers_witness :
    Engine.probeDecode [0] = .err "Invalid" ∧
    Engine.readerRun Engine.probeDecode [.bytes [1]] [0] =
      [Engine.ClientEvent.error ("decode error: " ++ "Invalid"),
       Engine.ClientEvent.frame ⟨0, 5, .msg, .blob []⟩] :=
  ⟨rfl,
    (c7_reader_recovers Engine.probeDecode [0] [1] "Invalid"
      ⟨0, 5, .msg, .blob []⟩ rfl rfl rfl).2⟩

/-- C5: for a handshake completed by an Ack whose control document has
`handshake = "ok"`: `parse_handshake_ack` yields `true` when the
document's `pairing_required` field is the boolean `true` and `false`
when the field is absent; every successful handshake draws its
`pairing_required` flag from such an Ack in the input; and the actor's
`Connected` event carries exactly that flag. -/
theorem c5_pairing_required :
    (∀ (f : Engine.Frame) (props : Engine.JValue),
      f.payload = .control props →
      (props.get "handshake").bind Engine.JValue.asStr = some "ok" →
      ((props.get "pairing_required") = some (.bool true) →
        Engine.parse_handshake_ack f = some true) ∧
      ((props.get "pairing_required") = none →
        Engine.parse_handshake_ack f = some false)) ∧
    (∀ (st : Engine.ClientState) (env : Engine.ConnectEnv)
      (acts : List Engine.Act) (evs : List Engine.ClientEvent)
      (conn : Engine.ConnState),
      Engine.connectModel st env = (acts, evs, .success conn) →
      ∃ f, Engine.HsIncoming.frame f ∈ env.incoming ∧
        Engine.parse_handshake_ack f = some conn.pairing_required) ∧
    (∀ (st : Engine.ClientState) (env : Engine.ConnectEnv)
      (acts : List Engine.Act) (evs : List Engine.ClientEvent)
      (conn : Engine.ConnState),
      Engine.connectModel st env = (acts, evs, .success conn) →
      (Engine.engineStep none (.connect st) env).events =
        evs ++ [Engine.ClientEvent.connected conn.session_id
          conn.pairing_required]) := by
  refine ⟨?_, ?_, ?_⟩
  · intro f props hpay hok
    constructor
    · intro hpr
      simp [Engine.parse_handshake_ack, hpay, hok, hpr,
        Engine.JValue.asBool]
    · intro hpr
      simp [Engine.parse_handshake_ack, hpay, hok, hpr]
  · intro st env acts evs conn h
    obtain ⟨ba, bev, np, hb2, la, lev, profile, dirty, tailActs,
      hboot, hns, hl, hacts, htail⟩ :=
      Engine.connectModel_success_decomp st env acts evs conn h
    exact Engine.hsLoop_success_ack env env.incoming
      (Engine.initHsState st) la lev conn profile dirty hl
  · intro st env acts evs conn h
    simp [Engine.engineStep, h]

/-- C5 witness: the two concrete Ack documents of the claim, evaluated
through `parse_handshake_ack`. -/
theorem c5_pairing_required_witness :
    Engine.parse_handshake_ack Engine.ackTrueFrame = some true ∧
    Engine.parse_handshake_ack Engine.ackOkFrame = some false :=
  ⟨(c5_pairing_required.1 Engine.ackTrueFrame
      (.obj [("handshake", .str "ok"), ("pairing_required", .bool true)])
      rfl rfl).1 rfl,
   (c5_pairing_required.1 Engine.ackOkFrame
      (.obj [("handshake", .str "ok")]) rfl rfl).2 rfl⟩

/-- C6: an Error frame received while the handshake loop is still
awaiting its completing Ack makes the attempt fail with the fixed
rejection message "handshake rejected" (distinct from every transport
failure message), republishes that frame as a `Frame` event, and the
actor surfaces a failed connect as exactly one `Error` event. -/
theorem c6_error_frame_rejects (env : Engine.ConnectEnv)
    (st st2 : Engine.HsState) (pre post : List Engine.HsIncoming)
    (f : Engine.Frame) (pa : List Engine.Act)
    (pe : List Engine.ClientEvent)
    (hpre : Engine.hsLoop env st pre = (pa, pe, .pending st2))
    (hf : f.frame_type = .error) :
    Engine.hsLoop env st (pre ++ .frame f :: post) =
      (pa, pe ++ [Engine.ClientEvent.frame f],
       .failure "handshake rejected") ∧
    (∀ (stc : Engine.ClientState) (acts : List Engine.Act)
      (evs : List Engine.ClientEvent) (e : String),
      Engine.connectModel stc env = (acts, evs, .failure e) →
      (Engine.engineStep none (.connect stc) env).events =
        evs ++ [Engine.ClientEvent.error e]) := by
  constructor
  · have happ := Engine.hsLoop_append_pending env pre st st2 pa pe hpre
      (.frame f :: post)
    rw [happ, Engine.hsLoop_error_frame env st2 f post hf]
    simp
  · intro stc acts evs e h
    simp [Engine.engineStep, h]

/-- C6 witness: an Error frame arriving first thing in the handshake. -/
theorem c6_error_frame_rejects_witness :
    Engine.hsLoop Engine.sampleEnv (Engine.initHsState Engine.sampleState)
      ([] ++ .frame ⟨0, 9, .error, .blob []⟩ :: []) =
      ([], [] ++ [Engine.ClientEvent.frame ⟨0, 9, .error, .blob []⟩],
       .failure "handshake rejected") :=
  (c6_error_frame_rejects Engine.sampleEnv
    (Engine.initHsState Engine.sampleState)
    (Engine.initHsState Engine.sampleState) [] []
    ⟨0, 9, .error, .blob []⟩ [] [] rfl rfl).1

/-- C3 (amended): on every successful handshake the first frame sent is
Hello with sequence 1. If an Auth frame was processed before the
completing Ack, the second frame sent is the Auth reply with sequence 2
and the application counter starts at 3; a handshake completed by an Ack
without any Auth exchange sends only Hello and starts the counter at 2.
In both cases the sequence numbers sent on one connection — handshake
frames then any number of application sends — are strictly increasing
and never reused. -/
theorem c3_sequence_discipline (st : Engine.ClientState)
    (env : Engine.ConnectEnv) (acts : List Engine.Act)
    (evs : List Engine.ClientEvent) (conn : Engine.ConnState) (k : Nat)
    (h : Engine.connectModel st env = (acts, evs, .success conn)) :
    ∃ hf tail, Engine.sentFrames acts = hf :: tail ∧ hf.sequence = 1 ∧
      hf.frame_type = .hello ∧
      ((tail = [] ∧ conn.sequence = 2) ∨
       (∃ rf, tail = [rf] ∧ rf.sequence = 2 ∧ rf.frame_type = .auth ∧
         conn.sequence = 3)) ∧
      List.Pairwise (· < ·)
        ((Engine.sentFrames acts).map Engine.Frame.sequence ++
          Engine.appSeqs conn k) := by
  obtain ⟨ba, bev, np, hb2, la, lev, profile, dirty, tailActs,
    hboot, hns, hl, hacts, htail⟩ :=
    Engine.connectModel_success_decomp st env acts evs conn h
  have hbn : Engine.sentFrames ba = [] := by
    have hx := Engine.bootstrap_no_frames st env
    rw [hboot] at hx
    exact hx
  have hsl := Engine.hsLoop_sent env env.incoming (Engine.initHsState st)
    la lev conn profile dirty (Or.inl ⟨rfl, rfl⟩) hl
  have hsf : Engine.sentFrames acts =
      Engine.helloFrame st np hb2 :: Engine.sentFrames la := by
    rw [hacts, Engine.sentFrames_append, Engine.sentFrames_append,
      Engine.sentFrames_append, hbn, htail,
      show Engine.sentFrames [Engine.Act.sendFrame
        (Engine.helloFrame st np hb2)] =
        [Engine.helloFrame st np hb2] from rfl]
    simp
  rcases hsl with ⟨hla, hcs⟩ | ⟨hn2, hc3, rf, hrla, hrseq, hrty⟩
  · have hcs2 : conn.sequence = 2 := hcs
    refine ⟨Engine.helloFrame st np hb2, [], by rw [hsf, hla], rfl, rfl,
      Or.inl ⟨rfl, hcs2⟩, ?_⟩
    rw [show (Engine.sentFrames acts).map Engine.Frame.sequence =
      [1] from by rw [hsf, hla]; rfl]
    rw [Engine.appSeqs_eq_range', hcs2]
    show List.Pairwise (· < ·) (1 :: List.range' 2 k)
    rw [List.pairwise_cons]
    constructor
    · intro b hb
      have hmem := (List.mem_range'_1.mp hb).1
      omega
    · exact List.pairwise_lt_range' 2 k 1 (by omega)
  · refine ⟨Engine.helloFrame st np hb2, [rf], by rw [hsf, hrla], rfl, rfl,
      Or.inr ⟨rf, rfl, hrseq, hrty, hc3⟩, ?_⟩
    rw [show (Engine.sentFrames acts).map Engine.Frame.sequence =
      [1, rf.sequence] from by rw [hsf, hrla]; rfl]
    rw [hrseq, Engine.appSeqs_eq_range', hc3]
    show List.Pairwise (· < ·) (1 :: 2 :: List.range' 3 k)
    rw [List.pairwise_cons, List.pairwise_cons]
    refine ⟨?_, ?_, List.pairwise_lt_range' 3 k 1 (by omega)⟩
    · intro b hb
      rcases List.mem_cons.mp hb with hb2' | hb3
      · omega
      · have hmem := (List.mem_range'_1.mp hb3).1
        omega
    · intro b hb
      have hmem := (List.mem_range'_1.mp hb).1
      omega

/-- C3 witness: the amended statement evaluated on a handshake that the
server completed with an Auth-free Ack; three application sends follow
with sequences 2, 3, 4. -/
theorem c3_sequence_discipline_witness :
    ∃ hf tail,
      Engine.sentFrames
        (Engine.connectModel Engine.okState Engine.ackOnlyEnv).1 =
        hf :: tail ∧ hf.sequence = 1 ∧ hf.frame_type = .hello ∧
      ((tail = [] ∧
        (⟨"unknown", 2, false⟩ : Engine.ConnState).sequence = 2) ∨
       (∃ rf, tail = [rf] ∧ rf.sequence = 2 ∧ rf.frame_type = .auth ∧
         (⟨"unknown", 2, false⟩ : Engine.ConnState).sequence = 3)) ∧
      List.Pairwise (· < ·)
        ((Engine.sentFrames
          (Engine.connectModel Engine.okState Engine.ackOnlyEnv).1).map
            Engine.Frame.sequence ++
          Engine.appSeqs ⟨"unknown", 2, false⟩ 3) := by
  have hx : Engine.connectModel Engine.okState Engine.ackOnlyEnv =
      ((Engine.connectModel Engine.okState Engine.ackOnlyEnv).1,
       (Engine.connectModel Engine.okState Engine.ackOnlyEnv).2.1,
       .success ⟨"unknown", 2, false⟩) := rfl
  exact c3_sequence_discipline Engine.okState Engine.ackOnlyEnv _ _ _ 3 hx

/-- C3 counterexample: with the server completing the handshake by an
immediate `{"handshake":"ok"}` Ack and no Auth exchange, the handshake
succeeds with the counter at 2, so the second frame ever sent on the
connection is the first application send — a Msg frame with sequence 2,
not an Auth frame, and an application frame with sequence below 3 —
refuting the claim as stated. -/
theorem c3_counterexample :
    (Engine.connectModel Engine.okState Engine.ackOnlyEnv).2.2 =
      .success ⟨"unknown", 2, false⟩ ∧
    Engine.sentFrames
      (Engine.connectModel Engine.okState Engine.ackOnlyEnv).1 =
      [Engine.helloFrame Engine.okState [] [1]] ∧
    (Engine.engineStep (some ⟨"unknown", 2, false⟩)
      (.sendMessage 7 [104, 105]) Engine.sampleEnv).acts =
      [Engine.Act.sendFrame ⟨7, 2, .msg, .blob [104, 105]⟩] ∧
    ¬ (3 : Nat) ≤ 2 :=
  ⟨rfl, rfl, rfl, by omega⟩

/-- C1 (amended): for a profile whose pattern requires a known remote
static key (IK or XK — every supported pattern) and that supplies none,
`Connect` fails with the configuration error "server_static required for
this pattern" before any handshake frame is sent; but the check runs only
after the transport bootstrap, so the DNS lookup and the TCP/TLS/h2/
request steps have already been performed by then. -/
theorem c1_static_key_gate (st : Engine.ClientState)
    (env : Engine.ConnectEnv) (uri : Engine.ParsedUri)
    (host a0 : String) (rest : List String) (kp : List Nat × List Nat)
    (p : Engine.HandshakePattern)
    (hp : env.parsedUri = some uri)
    (hs : uri.scheme.getD "https" = "https")
    (hh : uri.host = some host)
    (hd : env.dnsResult = some (a0 :: rest))
    (ht0 : env.tcpResult a0 = .ok ())
    (htc : env.tlsConnectorOk = .ok ())
    (hsn : env.serverNameOk = true)
    (htls : env.tlsOk = true)
    (hh2 : env.h2Ok = true)
    (hsr : env.sendRequestOk = true)
    (hkey : Engine.device_keypair st = .ok kp)
    (hpat : Engine.parse_pattern st.noise_pattern = .ok p)
    (hstatic : st.server_static = none) :
    ∃ acts evs, Engine.connectModel st env =
      (acts, evs, .failure "server_static required for this pattern") ∧
      Engine.sentFrames acts = [] ∧
      Engine.Act.dnsLookup
        (host ++ ":" ++ toString (uri.port.getD 443)) ∈ acts ∧
      Engine.Act.tcpAttempt a0 ∈ acts := by
  have hsc : Engine.scheme_check uri = .ok () := by
    simp [Engine.scheme_check, hs]
  have hboot : Engine.bootstrap st env =
      ([Engine.Act.dnsLookup (host ++ ":" ++ toString (uri.port.getD 443)),
        Engine.Act.tcpAttempt a0] ++
        [Engine.Act.tlsConnect, Engine.Act.h2Handshake,
         Engine.Act.spawnDriver, Engine.Act.sendRequest],
       [Engine.ClientEvent.log ("connected to " ++ a0)], .ok ()) := by
    simp [Engine.bootstrap, hp, hsc, hh, hd, Engine.tcpLoop, ht0, htc,
      hsn, htls, hh2, hsr]
  have hns : Engine.noiseSetup st env =
      .error "server_static required for this pattern" := by
    unfold Engine.noiseSetup
    rw [hkey, hpat]
    cases p <;> simp [hstatic]
  refine ⟨[Engine.Act.dnsLookup
      (host ++ ":" ++ toString (uri.port.getD 443)),
    Engine.Act.tcpAttempt a0, Engine.Act.tlsConnect,
    Engine.Act.h2Handshake, Engine.Act.spawnDriver,
    Engine.Act.sendRequest],
    [Engine.ClientEvent.log ("connected to " ++ a0)], ?_, rfl, ?_, ?_⟩
  · simp [Engine.connectModel, hboot, hns]
  · exact List.mem_cons_self _ _
  · exact List.mem_cons_of_mem _ (List.mem_cons_self _ _)

/-- C1 witness: the amended statement at the concrete IK profile with no
pinned key and an all-success transport environment. -/
theorem c1_static_key_gate_witness :
    ∃ acts evs, Engine.connectModel Engine.sampleState Engine.sampleEnv =
      (acts, evs, .failure "server_static required for this pattern") ∧
      Engine.sentFrames acts = [] ∧
      Engine.Act.dnsLookup ("example.com" ++ ":" ++ toString
        (Engine.sampleUri.port.getD 443)) ∈ acts ∧
      Engine.Act.tcpAttempt "93.184.216.34:443" ∈ acts :=
  c1_static_key_gate Engine.sampleState Engine.sampleEnv Engine.sampleUri
    "example.com" "93.184.216.34:443" []
    (List.replicate 32 0, List.replicate 32 0) .ik
    rfl rfl rfl rfl rfl rfl rfl rfl rfl rfl rfl rfl rfl

/-- C1 counterexample: on that same profile and environment the action
trace of the failing `Connect` already contains the DNS lookup and a TCP
connection attempt, refuting "no DNS lookup, no TCP socket is opened"
as stated. -/
theorem c1_counterexample :
    (Engine.connectModel Engine.sampleState Engine.sampleEnv).2.2 =
      .failure "server_static required for this pattern" ∧
    Engine.Act.dnsLookup "example.com:443" ∈
      (Engine.connectModel Engine.sampleState Engine.sampleEnv).1 ∧
    Engine.Act.tcpAttempt "93.184.216.34:443" ∈
      (Engine.connectModel Engine.sampleState Engine.sampleEnv).1 := by
  refine ⟨rfl, ?_, ?_⟩
  · rw [show (Engine.connectModel Engine.sampleState Engine.sampleEnv).1 =
      [Engine.Act.dnsLookup "example.com:443",
       Engine.Act.tcpAttempt "93.184.216.34:443", Engine.Act.tlsConnect,
       Engine.Act.h2Handshake, Engine.Act.spawnDriver,
       Engine.Act.sendRequest] from rfl]
    exact List.mem_cons_self _ _
  · rw [show (Engine.connectModel Engine.sampleState Engine.sampleEnv).1 =
      [Engine.Act.dnsLookup "example.com:443",
       Engine.Act.tcpAttempt "93.184.216.34:443", Engine.Act.tlsConnect,
       Engine.Act.h2Handshake, Engine.Act.spawnDriver,
       Engine.Act.sendRequest] from rfl]
    exact List.mem_cons_of_mem _ (List.mem_cons_self _ _)
